import Mathlib

/-!
# Verification of the lela-ai feedback-loop orchestrator core

Shallow embedding of the Python sources of the repository:

* `src/primitives/gap_extractor.py`      (`GapExtractor`)
* `src/components/requirement_comparator.py` (`RequirementComparator`)
* `src/core/workflow_orchestrator.py`    (`CircuitBreaker`, `WorkflowOrchestrator`)
* `src/features/feedback_loop.py`        (`FeedbackLoop`)
* `src/components/result_manager.py`     (`ResultManager`)
* `src/components/feedback_manager.py`   (`FeedbackManager`)
* `src/primitives/file_writer.py`        (`FileWriter`)
* `src/primitives/json_validator.py`     (`JSONValidator`)

Python strings are modelled as `List Char` (`PyStr`); machine floats that
only ever hold exactly representable values (`backoff_base`, the `0.5`
match threshold) are modelled as rationals; fallible code returns
`Except`; external effects (`time.sleep`, file writes) are recorded in
explicit traces.
-/

/-- A Python `str`, modelled as its list of characters. -/
abbrev PyStr := List Char

/-- Characters stripped by Python's `str.strip()` / matched by regex `\s`
(ASCII part; the Unicode-only whitespace code points play no role in any
input considered here). -/
def isPySpace (c : Char) : Bool :=
  c = ' ' || c = '\t' || c = '\n' || c = '\r' || c = '\x0b' || c = '\x0c'

/-- Python `str.lstrip()`. -/
def pyLStrip (s : PyStr) : PyStr := s.dropWhile isPySpace

/-- Python `str.strip()`: remove leading and trailing whitespace. -/
def pyStrip (s : PyStr) : PyStr :=
  ((s.dropWhile isPySpace).reverse.dropWhile isPySpace).reverse

/-- Python `str.split(sep)` for a one-character separator. -/
def splitOnChar (sep : Char) : PyStr → List PyStr
  | [] => [[]]
  | c :: rest =>
    if c = sep then [] :: splitOnChar sep rest
    else
      match splitOnChar sep rest with
      | [] => [[c]]
      | l :: ls => (c :: l) :: ls

/-- Python `str.split("\n")`. -/
def splitOnNL (s : PyStr) : List PyStr := splitOnChar '\n' s

/-- Python `str.lower()` (ASCII case mapping; the inputs considered here
contain no characters with a non-ASCII case mapping). -/
def toLowerStr (s : PyStr) : PyStr := s.map Char.toLower

/-- Python's substring test `needle in hay`. -/
def isSubstr (needle : PyStr) : PyStr → Bool
  | [] => needle.isEmpty
  | c :: rest => needle.isPrefixOf (c :: rest) || isSubstr needle rest

/-- Python `str.split()` with no argument: split on whitespace runs,
dropping empty pieces.  `cur` accumulates the current word, reversed. -/
def splitWSAux : PyStr → PyStr → List PyStr
  | cur, [] => if cur.isEmpty then [] else [cur.reverse]
  | cur, c :: rest =>
    if isPySpace c then
      if cur.isEmpty then splitWSAux [] rest
      else cur.reverse :: splitWSAux [] rest
    else splitWSAux (c :: cur) rest

/-- Python `str.split()` with no argument. -/
def splitWS (s : PyStr) : List PyStr := splitWSAux [] s

/-! ## GapExtractor (`src/primitives/gap_extractor.py`) -/

namespace GapExtractor

/-- `_COMMON_WORDS`: words filtered out when extracting key terms. -/
def COMMON_WORDS : List PyStr :=
  ["the", "a", "an", "as", "to", "from", "with", "and", "or", "of"].map String.toList

/-- `_MATCH_THRESHOLD = 0.5`, kept as the pair of a numerator and a
denominator: `0.5` is exactly representable as a float, `len * 0.5` is
computed exactly for every list length in range, and the comparison
`matches >= len * 0.5` is therefore exactly the integer comparison
`2 * matches >= len`. -/
def MATCH_THRESHOLD_NUM : ℕ := 1

/-- Denominator of `_MATCH_THRESHOLD = 0.5`. -/
def MATCH_THRESHOLD_DEN : ℕ := 2

/-- `is_pass`: `return result == "PASS"`; a `None` argument compares
unequal to any string in Python. -/
def is_pass (result : Option PyStr) : Bool :=
  result == some ("PASS".toList)

/-- `re.sub(r"^\d+\.\s*", "", line)`: if the line starts with one or more
digits followed by a literal dot, drop them together with the (possibly
empty) whitespace run after the dot; otherwise return the line unchanged. -/
def subNumberedListMarker (line : PyStr) : PyStr :=
  if (line.takeWhile Char.isDigit).isEmpty then line
  else
    match line.dropWhile Char.isDigit with
    | '.' :: rest => rest.dropWhile isPySpace
    | _ => line

/-- `_clean_requirement_line`. -/
def clean_requirement_line (line : PyStr) : PyStr :=
  let line := pyStrip line
  if line.isEmpty then []
  else subNumberedListMarker line

/-- `extract_requirements`. -/
def extract_requirements (instructions : PyStr) : List PyStr :=
  (splitOnNL (pyStrip instructions)).filterMap fun line =>
    let cleaned_line := clean_requirement_line line
    if cleaned_line.isEmpty then none else some cleaned_line

/-- `_extract_key_terms`. -/
def extract_key_terms (requirement : PyStr) : List PyStr :=
  (splitWS (toLowerStr requirement)).filter fun word => ¬ COMMON_WORDS.contains word

/-- `_has_integer_format`. -/
def has_integer_format (result result_lower : PyStr) : Bool :=
  if ¬ result.any Char.isDigit then false
  else if (["is", "sum", "the"].map String.toList).any
      (fun indicator => isSubstr indicator result_lower) then false
  else true

/-- `_requirement_satisfied`. -/
def requirement_satisfied (requirement : PyStr) (key_terms : List PyStr)
    (result : PyStr) : Bool :=
  let result_lower := toLowerStr result
  let requirement_lower := toLowerStr requirement
  if isSubstr ("integer".toList) requirement_lower &&
      ¬ has_integer_format result result_lower then false
  else
    let nMatches := (key_terms.filter (fun term => isSubstr term result_lower)).length
    -- `matches >= len(key_terms) * 0.5`, an exact float comparison
    decide (MATCH_THRESHOLD_DEN * nMatches ≥ MATCH_THRESHOLD_NUM * key_terms.length)

/-- `find_gaps`. -/
def find_gaps (requirements : List PyStr) (result : PyStr) : List PyStr :=
  requirements.filterMap fun requirement =>
    let key_terms := extract_key_terms requirement
    if ¬ requirement_satisfied requirement key_terms result then
      some (("Missing requirement: ".toList) ++ requirement)
    else none

end GapExtractor

/-! ## RequirementComparator (`src/components/requirement_comparator.py`)

`_is_valid_json_format` calls `json.loads` (external library); it is
modelled as an oracle parameter `is_valid_json`, and every theorem about
`evaluate` quantifies over it. -/

namespace RequirementComparator

/-- A match of `\d+\)` at the start of the string: one or more digits
followed by a closing parenthesis.  Returns the remainder on success. -/
def matchNumParen (s : PyStr) : Option PyStr :=
  if (s.takeWhile Char.isDigit).isEmpty then none
  else
    match s.dropWhile Char.isDigit with
    | ')' :: rest => some rest
    | _ => none

/-- Python's `$` (no MULTILINE): end of string, or just before a final
newline. -/
def atEndAnchor (s : PyStr) : Bool :=
  s.isEmpty || s == ['\n']

/-- Character class `[a-z0-9\s]` of pattern 1's capture group. -/
def isItemChar (c : Char) : Bool :=
  c.isLower || c.isDigit || isPySpace c

/-- The lazy extension `[a-z0-9\s]*?` of pattern 1's capture group,
terminated by `(?:,|\d+\)|$)` (tried in this alternation order; lazily, so
the terminator is tried before the group grows).  `acc` holds the group
read so far, reversed.  On success the captured group and the remainder
after the whole match are returned. -/
def lazyGroupScan : PyStr → PyStr → Option (PyStr × PyStr)
  | acc, [] => some (acc.reverse, [])
  | acc, c :: rest =>
    if c = ',' then some (acc.reverse, rest)
    else
      match matchNumParen (c :: rest) with
      | some after => some (acc.reverse, after)
      | none =>
        if atEndAnchor (c :: rest) then some (acc.reverse, c :: rest)
        else if isItemChar c then lazyGroupScan (c :: acc) rest
        else none

/-- One attempted match of pattern 1,
`\d+\)\s*([a-z][a-z0-9\s]*?)(?:,|\d+\)|$)`, anchored at the start of `s`:
digits, `)`, greedy whitespace (disjoint from `[a-z]`, so no backtracking
can arise), a mandatory `[a-z]`, then the lazy group.  Returns the capture
and the remainder after the match. -/
def matchPat1 (s : PyStr) : Option (PyStr × PyStr) :=
  match matchNumParen s with
  | none => none
  | some afterParen =>
    match afterParen.dropWhile isPySpace with
    | c :: rest => if c.isLower then lazyGroupScan [c] rest else none
    | [] => none

/-- `re.findall` for pattern 1: scan left to right, restarting one
character later after a failed attempt and after the match after a
successful one.  `fuel` only bounds the recursion; `s.length + 1` is
always enough, since every step consumes at least one character of `s`. -/
def findallPat1 : ℕ → PyStr → List PyStr
  | 0, _ => []
  | _ + 1, [] => []
  | fuel + 1, s@(_ :: rest) =>
    match matchPat1 s with
    | some (g, after) => g :: findallPat1 fuel after
    | none => findallPat1 fuel rest

/-- One attempted match of pattern 2, `:\s*([a-z_][a-z0-9_,\s]*)`,
anchored at the start of `s`; both quantifiers are greedy and nothing
follows the group, so no backtracking can arise. -/
def matchPat2 (s : PyStr) : Option (PyStr × PyStr) :=
  match s with
  | ':' :: rest =>
    match rest.dropWhile isPySpace with
    | c :: rest2 =>
      if c.isLower || c = '_' then
        let cls := fun d => d.isLower || d.isDigit || d = '_' || d = ',' || isPySpace d
        some (c :: rest2.takeWhile cls, rest2.dropWhile cls)
      else none
    | [] => none
  | _ => none

/-- `re.findall` for pattern 2 (same scanning discipline as pattern 1). -/
def findallPat2 : ℕ → PyStr → List PyStr
  | 0, _ => []
  | _ + 1, [] => []
  | fuel + 1, s@(_ :: rest) =>
    match matchPat2 s with
    | some (g, after) => g :: findallPat2 fuel after
    | none => findallPat2 fuel rest

/-- `_find_missing_items`. -/
def find_missing_items (instructions result : PyStr) : List PyStr :=
  let result_lower := toLowerStr result
  let instructions_lower := toLowerStr instructions
  let numbered_matches := findallPat1 (instructions_lower.length + 1) instructions_lower
  let missing :=
    numbered_matches.filterMap fun item =>
      let item := pyStrip item
      if ¬ item.isEmpty && ¬ isSubstr item result_lower then some item else none
  if ¬ missing.isEmpty then missing
  else
    let colon_matches := findallPat2 (instructions_lower.length + 1) instructions_lower
    colon_matches.flatMap fun m =>
      ((splitOnChar ',' m).map pyStrip).filter fun item =>
        ¬ item.isEmpty && ¬ isSubstr item result_lower

/-- `', '.join(items)`. -/
def joinCommaSpace : List PyStr → PyStr
  | [] => []
  | [x] => x
  | x :: xs => x ++ (", ".toList) ++ joinCommaSpace xs

/-- `_determine_gaps`; `is_valid_json` is the `json.loads`-success oracle
standing for `_is_valid_json_format`. -/
def determine_gaps (is_valid_json : PyStr → Bool) (instructions : PyStr)
    (result : Option PyStr) : List PyStr :=
  match result with
  | none => [("No result provided".toList)]
  | some r =>
    if r.isEmpty then [("No result provided".toList)]
    else if (pyStrip r).isEmpty then [("No result provided".toList)]
    else if isSubstr ("json".toList) (toLowerStr instructions) && ¬ is_valid_json r then
      [("Malformed result: ".toList) ++ r]
    else
      let enumerated := isSubstr (":".toList) (toLowerStr instructions) ||
        isSubstr (")".toList) instructions
      let missing_items := if enumerated then find_missing_items instructions r else []
      if enumerated && ¬ missing_items.isEmpty then
        [("Incomplete result: missing ".toList) ++ joinCommaSpace missing_items]
      else
        let requirements := GapExtractor.extract_requirements instructions
        if requirements.isEmpty then [("Incorrect result: ".toList) ++ r]
        else
          let gaps := GapExtractor.find_gaps requirements r
          if ¬ gaps.isEmpty then
            gaps.map fun gap =>
              if isSubstr ("Missing requirement".toList) gap then
                ("Incorrect result: ".toList) ++ r
              else gap
          else [("Incorrect result: ".toList) ++ r]

/-- `evaluate`. -/
def evaluate (is_valid_json : PyStr → Bool) (instructions : PyStr)
    (result : Option PyStr) : PyStr × List PyStr :=
  if GapExtractor.is_pass result then (("PASS".toList), [])
  else (("FAIL".toList), determine_gaps is_valid_json instructions result)

end RequirementComparator

/-! ## CircuitBreaker (`src/core/workflow_orchestrator.py`, lines 13-29) -/

/-- `CircuitBreaker` instance state (`max_failures` is a Python `int`,
hence modelled as `ℤ`). -/
structure CircuitBreaker where
  max_failures : ℤ
  failure_count : ℤ
  open_flag : Bool
deriving DecidableEq, Repr

namespace CircuitBreaker

/-- `__init__(self, max_failures: int = 3)`. -/
def init (max_failures : ℤ := 3) : CircuitBreaker :=
  { max_failures := max_failures, failure_count := 0, open_flag := false }

/-- `record_failure`. -/
def record_failure (cb : CircuitBreaker) : CircuitBreaker :=
  let fc := cb.failure_count + 1
  { cb with
      failure_count := fc
      open_flag := if fc ≥ cb.max_failures then true else cb.open_flag }

/-- `is_open`. -/
def is_open (cb : CircuitBreaker) : Bool := cb.open_flag

/-- The operations available on a `CircuitBreaker` instance
(`is_open` is a pure read and leaves the state unchanged). -/
inductive Op where
  | recordFailure
  | isOpenQuery
deriving DecidableEq, Repr

/-- Effect of one operation on the instance state. -/
def applyOp (cb : CircuitBreaker) : Op → CircuitBreaker
  | .recordFailure => cb.record_failure
  | .isOpenQuery => cb

/-- Effect of a sequence of operations. -/
def applyOps (cb : CircuitBreaker) (ops : List Op) : CircuitBreaker :=
  ops.foldl applyOp cb

end CircuitBreaker

/-! ## WorkflowOrchestrator (`src/core/workflow_orchestrator.py`, lines 32-184)

The per-step retry loop, backoff sleeps, circuit-breaker recording,
checkpoint skipping, execution counters and failure propagation are
modelled exactly.  `time.sleep` is recorded as a trace of slept durations
(`backoff_base` is a float multiplied only by small integers, so the
rational model is exact).  The external primitives invoked by the
`create_session` / `create_pod` / `create_file` / `write_file` /
`load_config` actions (`PathResolver`, `FileWriter`, `ConfigLoader`) are
modelled on their success path, tracking the created paths exactly as the
source records them for rollback; the directory-name uniqueness suffixes
produced by `PathResolver` are irrelevant here and elided from the
modelled names.  `rollback_on_failure` performs filesystem deletions; the
model counts its invocations (the source does not modify the tracking
lists). -/

/-- A workflow step: the dictionary keys that
`WorkflowOrchestrator.execute_with_retry` reads. -/
structure Step where
  action : PyStr
  checkpoint : Bool := false
  should_fail_once : Bool := false
  should_fail_count : ℕ := 0
  should_fail : Bool := false
  project_root : Option PyStr := none
  agent_name : Option PyStr := none
  pod_name : PyStr := []
  path : PyStr := []
deriving Repr

/-- The `context` dict (only its `"root"` key is read by the modelled
actions). -/
structure Ctx where
  root : PyStr := []
deriving Repr

/-- Exceptions raised inside `execute_with_retry`. -/
inductive Exn where
  /-- `Exception("Intentional failure for testing")` (line 75). -/
  | intentionalFailureTesting
  /-- `Exception(f"Intentional failure {attempts}")` (line 78). -/
  | intentionalFailureN (attempts : ℕ)
  /-- `Exception("Intentional failure")` (line 118). -/
  | intentionalFailure
  /-- `Exception("Step failed as configured")` (line 122). -/
  | stepFailedAsConfigured
  /-- `Exception("Circuit breaker opened") from e` (lines 148, 153). -/
  | circuitBreakerOpened (cause : Exn)
deriving DecidableEq, Repr

/-- Persistent `WorkflowOrchestrator` object state. -/
structure Orch where
  max_retries : ℕ
  backoff_base : ℚ
  circuit_breaker : CircuitBreaker
  created_files : List PyStr := []
  created_dirs : List PyStr := []
  step_execution_counts : List (PyStr × ℕ) := []
  checkpoint_state : List PyStr := []
deriving Repr

/-- `WorkflowOrchestrator.__init__` (the circuit breaker is constructed
with `max_failures=max_retries`). -/
def Orch.init (max_retries : ℕ := 3) (backoff_base : ℚ := 1) : Orch :=
  { max_retries := max_retries
    backoff_base := backoff_base
    circuit_breaker := CircuitBreaker.init (max_retries : ℤ) }

/-- Ordered association-list lookup, mirroring a Python dict. -/
def alistGet (m : List (PyStr × ℕ)) (k : PyStr) : Option ℕ :=
  (m.find? (fun p => p.1 == k)).map (·.2)

/-- `d[k] = v` on an insertion-ordered dict. -/
def alistSet (m : List (PyStr × ℕ)) (k : PyStr) (v : ℕ) : List (PyStr × ℕ) :=
  if (m.find? (fun p => p.1 == k)).isSome then
    m.map fun p => if p.1 == k then (p.1, v) else p
  else m ++ [(k, v)]

/-- `d.setdefault(k, v)`. -/
def alistSetdefault (m : List (PyStr × ℕ)) (k : PyStr) (v : ℕ) : List (PyStr × ℕ) :=
  if (m.find? (fun p => p.1 == k)).isSome then m else m ++ [(k, v)]

/-- `d[k] += 1` (the key is always present: it was `setdefault`-ed). -/
def alistBump (m : List (PyStr × ℕ)) (k : PyStr) : List (PyStr × ℕ) :=
  alistSet m k ((alistGet m k).getD 0 + 1)

/-- The actions rolled back on unrecoverable failure (lines 138-145). -/
def mutatingActions : List PyStr :=
  ["create_file", "write_file", "create_session", "create_pod",
   "fail_intentionally", "invalid_operation"].map String.toList

/-- The per-call environment of one `execute_with_retry` invocation:
the object state plus the call's local accumulators and the model-level
effect traces. -/
structure ExecEnv where
  o : Orch
  sleeps : List ℚ := []
  session_dir : Option PyStr := none
  rollback_runs : ℕ := 0
  steps_executed : ℕ := 0
  failures : ℕ := 0
  step_attempts : List (PyStr × ℕ) := []
deriving Repr

/-- The `try:` block, source lines 70-123 (the simulated-failure hooks
and the action dispatch; the bookkeeping of lines 71 and 124-129 is done
by the caller). -/
def tryBody (ctx : Ctx) (step : Step) (attempts : ℕ) (e : ExecEnv) :
    ExecEnv × Except Exn Unit :=
  if step.should_fail_once ∧ attempts = 1 then
    (e, .error .intentionalFailureTesting)
  else if step.should_fail_count ≥ attempts then
    ({ e with sleeps := e.sleeps ++ [e.o.backoff_base * ((attempts - 1 : ℕ) : ℚ)] },
     .error (.intentionalFailureN attempts))
  else if step.action = ("load_config".toList) then (e, .ok ())
  else if step.action = ("create_session".toList) then
    let project_root := step.project_root.getD ctx.root
    let agent_name := step.agent_name.getD ("test-agent".toList)
    let session_dir := project_root ++ ("/.agent-harness/sessions/agent-".toList) ++ agent_name
    let harness_dir := project_root ++ ("/.agent-harness".toList)
    let dirs := e.o.created_dirs ++ [session_dir]
    let dirs := if harness_dir ∈ dirs then dirs else harness_dir :: dirs
    ({ e with o := { e.o with created_dirs := dirs }, session_dir := some session_dir },
     .ok ())
  else if step.action = ("create_pod".toList) then
    match e.session_dir with
    | some session_dir =>
      let pod_dir := session_dir ++ ("/pods/pod-".toList) ++ step.pod_name
      ({ e with o := { e.o with created_dirs := e.o.created_dirs ++ [pod_dir] } }, .ok ())
    | none => (e, .ok ())
  else if step.action = ("write_instructions".toList) then (e, .ok ())
  else if step.action = ("verify_files".toList) then (e, .ok ())
  else if step.action = ("create_file".toList) then
    let file_path := ctx.root ++ ('/' :: step.path)
    ({ e with o := { e.o with created_files := e.o.created_files ++ [file_path] } }, .ok ())
  else if step.action = ("write_file".toList) then
    ({ e with o := { e.o with created_files := e.o.created_files ++ [step.path] } }, .ok ())
  else if step.action = ("invalid_operation".toList) ∨
      step.action = ("fail_intentionally".toList) then
    (e, .error .intentionalFailure)
  else if ("step".toList).isPrefixOf step.action then
    if step.should_fail then (e, .error .stepFailedAsConfigured) else (e, .ok ())
  else (e, .ok ())

/-- Result of the per-step `while` loop: `.ok true` on success, `.ok
false` when the loop condition `attempts < max_retries` is exhausted
without success (possible only for `max_retries = 0`), `.error` when an
exception escapes. -/
structure StepLoopOut where
  env : ExecEnv
  attempts : ℕ
  outcome : Except Exn Bool
deriving Repr

/-- The per-step retry loop, source lines 66-156.  `fuel` counts the
remaining loop iterations: the loop runs while `attempts < max_retries`,
and `fuel = max_retries - attempts` at every call. -/
def stepLoop (ctx : Ctx) (step : Step) (step_key : PyStr) :
    ℕ → ℕ → ExecEnv → StepLoopOut
  | 0, attempts, e => { env := e, attempts := attempts, outcome := .ok false }
  | fuel + 1, attempts, e =>
    let attempts := attempts + 1
    let e := { e with o := { e.o with
      step_execution_counts :=
        alistBump e.o.step_execution_counts (step_key ++ ("_executions".toList)) } }
    match tryBody ctx step attempts e with
    | (e, .ok ()) =>
      let e :=
        if step.checkpoint then
          { e with o := { e.o with
              checkpoint_state :=
                if step_key ∈ e.o.checkpoint_state then e.o.checkpoint_state
                else e.o.checkpoint_state ++ [step_key] } }
        else e
      { env := e, attempts := attempts, outcome := .ok true }
    | (e, .error exn) =>
      let e := { e with o :=
        { e.o with circuit_breaker := e.o.circuit_breaker.record_failure } }
      if attempts ≥ e.o.max_retries then
        let e := { e with failures := e.failures + 1 }
        let e :=
          if step.action ∈ mutatingActions then
            { e with rollback_runs := e.rollback_runs + 1 }
          else e
        if e.o.circuit_breaker.is_open then
          { env := e, attempts := attempts, outcome := .error (.circuitBreakerOpened exn) }
        else
          { env := e, attempts := attempts, outcome := .error exn }
      else if e.o.circuit_breaker.is_open then
        { env := e, attempts := attempts, outcome := .error (.circuitBreakerOpened exn) }
      else
        let e := { e with sleeps := e.sleeps ++ [e.o.backoff_base * (attempts : ℚ)] }
        stepLoop ctx step step_key fuel attempts e

/-- The step iteration of `execute_with_retry` (lines 56-160); returns
the final environment and the escaped exception, if any. -/
def execSteps (ctx : Ctx) : List (ℕ × Step) → ExecEnv → ExecEnv × Option Exn
  | [], e => (e, none)
  | (i, step) :: rest, e =>
    let action := step.action
    let step_key :=
      if ("step".toList).isPrefixOf action then ("step".toList) ++ (toString (i + 1)).toList
      else action
    let e := { e with o := { e.o with
      step_execution_counts :=
        alistSetdefault e.o.step_execution_counts (step_key ++ ("_executions".toList)) 0 } }
    if step.checkpoint ∧ step_key ∈ e.o.checkpoint_state then
      execSteps ctx rest e
    else
      let r := stepLoop ctx step step_key e.o.max_retries 0 e
      match r.outcome with
      | .error exn => (r.env, some exn)
      | .ok success =>
        let e := r.env
        let e := if success then { e with steps_executed := e.steps_executed + 1 } else e
        let e :=
          if ("step".toList).isPrefixOf action then
            { e with step_attempts :=
                alistSet e.step_attempts (action ++ ("_attempts".toList)) r.attempts }
          else e
        execSteps ctx rest e

/-- The dictionary returned by `execute_with_retry` on completion. -/
structure RunResult where
  status : PyStr
  steps_executed : ℕ
  failures : ℕ
  step_attempts : List (PyStr × ℕ)
  step_execution_counts : List (PyStr × ℕ)
deriving DecidableEq, Repr

/-- `execute_with_retry`: returns the final per-call environment together
with the returned dictionary or the escaped exception. -/
def execute_with_retry (o : Orch) (workflow_steps : List Step) (ctx : Ctx) :
    ExecEnv × Except Exn RunResult :=
  match execSteps ctx workflow_steps.enum { o := o } with
  | (e, some exn) => (e, .error exn)
  | (e, none) =>
    (e, .ok
      { status := ("completed".toList)
        steps_executed := e.steps_executed
        failures := e.failures
        step_attempts := e.step_attempts
        step_execution_counts := e.o.step_execution_counts })

/-! ## FeedbackLoop (`src/features/feedback_loop.py`)

The loop's own control logic (attempt counting, iteration tracking,
history, PASS/FAIL termination, the `TimeoutError` catch in `run`) is
modelled exactly.  Everything the loop consumes from outside — the pod
directory's files and the `WorkerExecution` / `SupervisorEvaluation`
collaborators — is modelled as an oracle (`PodEnv`) indexed by the
attempt number; any of these calls may raise, and the model counts how
often each is consulted so that "never executed" is expressible. -/

/-- A raised Python exception as seen by `FeedbackLoop.run`: the `except
TimeoutError` clause distinguishes `TimeoutError` (with its `str(e)`
detail) from every other exception. -/
inductive PyExn where
  | timeoutError (detail : PyStr)
  | other (name : PyStr)
deriving DecidableEq, Repr

/-- Oracle for the externals of one pod:  worker execution and supervisor
evaluation per attempt, and the contents read back from the pod files. -/
structure PodEnv where
  /-- `instructions.json` exists (checked in `_run_single_iteration`). -/
  instructions_exists : Bool := true
  /-- `instructions.json` parses as JSON. -/
  instructions_decodes : Bool := true
  /-- Worker execution at the given attempt (the attempt-1 plain path or
  the later feedback-aware path), including the result write. -/
  worker : ℕ → Except PyExn Unit := fun _ => .ok ()
  /-- `supervisor.evaluate` at the given attempt: the returned status
  string, or a raised exception. -/
  supervisor : ℕ → Except PyExn PyStr := fun _ => .ok ("FAIL".toList)
  /-- Gaps read from `feedback.json` after a FAIL at the given attempt
  (`_read_gaps`). -/
  gaps_at : ℕ → List PyStr := fun _ => []
  /-- Result read from `result.json` after a PASS at the given attempt
  (`_read_result`). -/
  result_at : ℕ → PyStr := fun _ => []

/-- One entry of `self.history`. -/
structure HistEntry where
  attempt : ℕ
  status : PyStr
  gaps : List PyStr
deriving DecidableEq, Repr

/-- Mutable `FeedbackLoop` state, plus instrumentation counters for the
oracle consultations (how often instructions were checked/read, the
worker executed, the supervisor invoked). -/
structure LoopState where
  current_attempt : ℕ := 0
  iteration_count : ℕ := 0
  loop_status : PyStr := ("idle".toList)
  history : List HistEntry := []
  instructions_checks : ℕ := 0
  worker_calls : ℕ := 0
  supervisor_calls : ℕ := 0
deriving DecidableEq, Repr

/-- The dictionary returned by `run` / `_run_loop`. -/
structure LoopResult where
  status : PyStr
  attempts : ℕ
  reason : Option PyStr := none
  result : Option PyStr := none
deriving DecidableEq, Repr

namespace FeedbackLoop

/-- `_run_single_iteration`: bump the attempt counter, require a readable
`instructions.json`, then execute the worker (plain path on attempt 1,
feedback path afterwards — both are the `worker` oracle at the current
attempt). -/
def run_single_iteration (env : PodEnv) (s : LoopState) :
    LoopState × Except PyExn Unit :=
  let s := { s with current_attempt := s.current_attempt + 1 }
  let s := { s with instructions_checks := s.instructions_checks + 1 }
  if ¬ env.instructions_exists then
    (s, .error (.other ("FileNotFoundError".toList)))
  else if ¬ env.instructions_decodes then
    (s, .error (.other ("JSONDecodeError".toList)))
  else
    let s := { s with worker_calls := s.worker_calls + 1 }
    (s, env.worker s.current_attempt)

/-- The `while` body-and-exit of `_run_loop`.  The loop runs while
`current_attempt < max_attempts` (`max_attempts` is a Python `int`);
`fuel = (max_attempts - current_attempt).toNat` at every call, so
`fuel = 0` exactly when the loop condition is false. -/
def run_loop_go (env : PodEnv) : ℕ → LoopState → LoopState × Except PyExn LoopResult
  | 0, s =>
    let s := { s with loop_status := ("FAILED".toList) }
    (s, .ok { status := ("FAIL".toList), reason := some ("MAX_ATTEMPTS_EXCEEDED".toList),
              attempts := s.current_attempt })
  | fuel + 1, s =>
    let s := { s with iteration_count := s.iteration_count + 1 }
    match run_single_iteration env s with
    | (s, .error exn) => (s, .error exn)
    | (s, .ok ()) =>
      let s := { s with supervisor_calls := s.supervisor_calls + 1 }
      match env.supervisor s.current_attempt with
      | .error exn => (s, .error exn)
      | .ok status =>
        let gaps := if status = ("FAIL".toList) then env.gaps_at s.current_attempt else []
        let s := { s with history :=
          s.history ++ [{ attempt := s.current_attempt, status := status, gaps := gaps }] }
        if status = ("PASS".toList) then
          let s := { s with loop_status := ("COMPLETE".toList) }
          (s, .ok { status := ("PASS".toList), attempts := s.current_attempt,
                    result := some (env.result_at s.current_attempt) })
        else
          run_loop_go env fuel s

/-- `_run_loop` (`max_attempts` may be zero or negative, hence `ℤ`). -/
def run_loop (env : PodEnv) (max_attempts : ℤ) : LoopState × Except PyExn LoopResult :=
  run_loop_go env max_attempts.toNat {}

/-- `run`: delegate to `_run_loop`, converting a `TimeoutError` into a
graceful FAIL result; every other exception propagates. -/
def run (env : PodEnv) (max_attempts : ℤ) : LoopState × Except PyExn LoopResult :=
  match run_loop env max_attempts with
  | (s, .error (.timeoutError detail)) =>
    (s, .ok { status := ("FAIL".toList),
              reason := some (("timeout: ".toList) ++ detail),
              attempts := s.current_attempt })
  | (s, .error exn) => (s, .error exn)
  | (s, .ok r) => (s, .ok r)

end FeedbackLoop

/-! ## FileWriter, JSONValidator, FeedbackManager, ResultManager

`FileWriter` (`src/primitives/file_writer.py`) exposes three distinct
write paths: `write` (plain `open(..., "w")` + `json.dump`, truncating in
place), `write_atomic` (temp file in the same directory + `os.rename`)
and `write_with_lock` (`fcntl.flock` around truncate + dump).  A write is
modelled as the operation it enqueues against the filesystem; which of
the three paths a component calls is therefore observable. -/

/-- A JSON value (`ensure_ascii=False`, so strings are unescaped). -/
inductive JSON where
  | str (s : PyStr)
  | int (n : ℤ)
  | arr (items : List JSON)
  | obj (fields : List (PyStr × JSON))
  | bool (b : Bool)
  | null

/-- One filesystem write, tagged with the `FileWriter` path that performs
it. -/
inductive WriteOp where
  /-- `FileWriter.write`: direct truncating write, not atomic. -/
  | plainWrite (file_path : PyStr) (data : JSON)
  /-- `FileWriter.write_atomic`: temp file + atomic rename. -/
  | atomicWrite (file_path : PyStr) (data : JSON)
  /-- `FileWriter.write_with_lock`: exclusive-lock truncate + write. -/
  | lockWrite (file_path : PyStr) (data : JSON)

namespace FileWriter

/-- `write(file_path, data)` (lines 48-71 of `file_writer.py`). -/
def write (file_path : PyStr) (data : JSON) : WriteOp := .plainWrite file_path data

/-- `write_atomic(file_path, data)` (lines 73-113). -/
def write_atomic (file_path : PyStr) (data : JSON) : WriteOp := .atomicWrite file_path data

/-- `write_with_lock(file_path, data)` (lines 115-154). -/
def write_with_lock (file_path : PyStr) (data : JSON) : WriteOp := .lockWrite file_path data

end FileWriter

namespace JSONValidator

/-- `dict.get(k)` on a JSON object's field list. -/
def jget (fields : List (PyStr × JSON)) (k : PyStr) : Option JSON :=
  (fields.find? (fun p => p.1 == k)).map (·.2)

/-- Draft-7 check of `FEEDBACK_PASS_SCHEMA`: requires `status` (string,
enum `["PASS"]`), `result` (any) and `attempts` (integer); additional
properties permitted.  Error messages are modelled as field names. -/
def validate_feedback_pass (fields : List (PyStr × JSON)) : Bool × List PyStr :=
  let statusOk : Bool := match jget fields ("status".toList) with
    | some (.str s) => s == ("PASS".toList)
    | _ => false
  let resultOk : Bool := (jget fields ("result".toList)).isSome
  let attemptsOk : Bool := match jget fields ("attempts".toList) with
    | some (.int _) => true
    | _ => false
  let errs := (if statusOk then [] else [("status".toList)]) ++
    (if resultOk then [] else [("result".toList)]) ++
    (if attemptsOk then [] else [("attempts".toList)])
  (errs.isEmpty, errs)

/-- Draft-7 check of `FEEDBACK_FAIL_SCHEMA`: requires `status` (string,
enum `["FAIL"]`), `gaps` (array of strings with `minItems: 1`) and
`attempt` (integer); additional properties permitted. -/
def validate_feedback_fail (fields : List (PyStr × JSON)) : Bool × List PyStr :=
  let statusOk : Bool := match jget fields ("status".toList) with
    | some (.str s) => s == ("FAIL".toList)
    | _ => false
  let gapsOk : Bool := match jget fields ("gaps".toList) with
    | some (.arr items) =>
      items.all (fun it => match it with | .str _ => true | _ => false) &&
        decide (1 ≤ items.length)
    | _ => false
  let attemptOk : Bool := match jget fields ("attempt".toList) with
    | some (.int _) => true
    | _ => false
  let errs := (if statusOk then [] else [("status".toList)]) ++
    (if gapsOk then [] else [("gaps".toList)]) ++
    (if attemptOk then [] else [("attempt".toList)])
  (errs.isEmpty, errs)

/-- `validate_feedback`: dispatch on the `status` field. -/
def validate_feedback (fields : List (PyStr × JSON)) : Bool × List PyStr :=
  match jget fields ("status".toList) with
  | some (.str s) =>
    if s = ("PASS".toList) then validate_feedback_pass fields
    else if s = ("FAIL".toList) then validate_feedback_fail fields
    else (false, [("status".toList)])
  | _ => (false, [("status".toList)])

end JSONValidator

/-- `ValueError` raised by the managers (the message text plays no role
in the claims and is not modelled). -/
inductive MgrErr where
  | valueError
deriving DecidableEq, Repr

namespace FeedbackManager

/-- `write_fail(gaps, attempt, pod_dir, pod_id)` composed with
`_write_feedback`: build the FAIL document, validate it, and only on
success enqueue the atomic write of `<pod_dir>/feedback.json`.  The
`TimestampGenerator.now()` value is the external `timestamp` argument.
Returns the written path or the raised error, together with the list of
writes performed. -/
def write_fail (gaps : List PyStr) (attempt : ℤ) (pod_dir pod_id timestamp : PyStr) :
    Except MgrErr PyStr × List WriteOp :=
  let data : List (PyStr × JSON) :=
    [(("status".toList), .str ("FAIL".toList)),
     (("gaps".toList), .arr (gaps.map .str)),
     (("attempt".toList), .int attempt),
     (("timestamp".toList), .str timestamp),
     (("pod_id".toList), .str pod_id)]
  let v := JSONValidator.validate_feedback data
  if ¬ v.1 then (.error .valueError, [])
  else
    let feedback_path := pod_dir ++ ("/feedback.json".toList)
    (.ok feedback_path, [FileWriter.write_atomic feedback_path (.obj data)])

end FeedbackManager

namespace ResultManager

/-- `write(result, worker_dir, worker_id, pod_id, session_id)` (lines
69-106 of `result_manager.py`): reject an empty result, build the result
document with metadata, and enqueue the write of
`<worker_dir>/result.json` via `self.writer.write` — which is
`FileWriter.write`, the plain truncating path (the `AtomicFileWriter`
name is a bare alias for `FileWriter`).  No schema validation is invoked
on this path.  Returns the written path or the raised error, together
with the writes performed. -/
def write (result : PyStr) (worker_dir worker_id pod_id session_id timestamp : PyStr) :
    Except MgrErr PyStr × List WriteOp :=
  if result.isEmpty then (.error .valueError, [])
  else
    let data : List (PyStr × JSON) :=
      [(("result".toList), .str result),
       (("worker_id".toList), .str worker_id),
       (("pod_id".toList), .str pod_id),
       (("session_id".toList), .str session_id),
       (("timestamp".toList), .str timestamp)]
    let file_path := worker_dir ++ ("/result.json".toList)
    (.ok file_path, [FileWriter.write file_path (.obj data)])

end ResultManager

/-! ## Specification readings used by the refutations/amendments -/

/-- The enumeration marker exactly as the specification words it for
`extractRequirements`: a leading marker of the literal form
`<number>. ` — one or more digits, a dot, and a single space. -/
def stripSpecMarker (line : PyStr) : PyStr :=
  if (line.takeWhile Char.isDigit).isEmpty then line
  else
    match line.dropWhile Char.isDigit with
    | '.' :: ' ' :: rest => rest
    | _ => line

/-- `extractRequirements` as the claim words it: the non-blank lines of
the instruction text, in their original order, each with any leading
`<number>. ` marker stripped; blank (whitespace-only) lines, including
runs of them, are dropped. -/
def extractRequirementsClaimed (instructions : PyStr) : List PyStr :=
  ((splitOnNL instructions).filter (fun line => ¬ (pyStrip line).isEmpty)).map
    stripSpecMarker

/-- The amended reading of `extractRequirements`: each line of the
whitespace-trimmed instruction text is itself trimmed of surrounding
whitespace; blank lines are dropped; a leading marker of one or more
digits followed by a dot and an arbitrary (possibly empty) whitespace run
is stripped; lines left empty by the stripping are dropped as well;
order is preserved. -/
def stripAmendedMarker (line : PyStr) : PyStr :=
  let digits := line.takeWhile Char.isDigit
  let rest := line.drop digits.length
  if 1 ≤ digits.length ∧ rest.head? = some '.' then (rest.drop 1).dropWhile isPySpace
  else line

/-- The list produced by the amended reading of `extractRequirements`. -/
def extractRequirementsAmended (instructions : PyStr) : List PyStr :=
  ((splitOnNL (pyStrip instructions)).map fun line =>
      let trimmed := pyStrip line
      if trimmed.isEmpty then [] else stripAmendedMarker trimmed).filter
    fun r => ¬ r.isEmpty

/-! ## Theorems -/

/-- C1: for every input `x`, `isPass(x)` returns true if and only if `x`
is the exact string `"PASS"` — case-sensitive, rejecting surrounding
whitespace and substring matches, with `null` and the empty string (and
the variants `"pass"`, `"Pass"`, `"PASS "`, `" PASS"`, `""`, `null`,
`"PASS!"`, `"X PASS Y"`) all yielding false. -/
theorem C1_is_pass_iff_exact_PASS :
    (∀ x : Option PyStr, GapExtractor.is_pass x = true ↔ x = some ("PASS".toList)) ∧
    GapExtractor.is_pass (some ("pass".toList)) = false ∧
    GapExtractor.is_pass (some ("Pass".toList)) = false ∧
    GapExtractor.is_pass (some ("PASS ".toList)) = false ∧
    GapExtractor.is_pass (some (" PASS".toList)) = false ∧
    GapExtractor.is_pass (some []) = false ∧
    GapExtractor.is_pass none = false ∧
    GapExtractor.is_pass (some ("PASS!".toList)) = false ∧
    GapExtractor.is_pass (some ("X PASS Y".toList)) = false := by
  refine ⟨fun x => ?_, by decide, by decide, by decide, by decide, by decide,
    by decide, by decide, by decide⟩
  simp [GapExtractor.is_pass]

/-- C9 refuted at the input `"1.A"`: the claim strips only markers of the
literal form `<number>. ` (with a space) from untrimmed non-blank lines,
predicting `["1.A"]`, while the code's regex `^\d+\.\s*` also fires
without any space after the dot and yields `["A"]`. -/
theorem C9_counterexample :
    GapExtractor.extract_requirements ("1.A".toList) = [("A".toList)] ∧
    extractRequirementsClaimed ("1.A".toList) = [("1.A".toList)] ∧
    GapExtractor.extract_requirements ("1.A".toList) ≠
      extractRequirementsClaimed ("1.A".toList) := by
  decide

/-- Helper: dropping the `takeWhile` portion of a list leaves its
`dropWhile`. -/
theorem drop_length_takeWhile (p : Char → Bool) (l : PyStr) :
    l.drop (l.takeWhile p).length = l.dropWhile p := by
  induction l with
  | nil => rfl
  | cons c rest ih =>
    by_cases h : p c <;> simp [List.takeWhile_cons, List.dropWhile_cons, h, ih]

/-- Helper: the amended marker-stripper coincides with the model of the
source's `re.sub(r"^\d+\.\s*", "", line)`. -/
theorem stripAmendedMarker_eq (line : PyStr) :
    stripAmendedMarker line = GapExtractor.subNumberedListMarker line := by
  simp only [stripAmendedMarker, GapExtractor.subNumberedListMarker, drop_length_takeWhile]
  by_cases hd : (line.takeWhile Char.isDigit).isEmpty
  · have h1 : ¬ (1 ≤ (line.takeWhile Char.isDigit).length ∧
        (line.dropWhile Char.isDigit).head? = some '.') := by
      rw [List.isEmpty_iff] at hd
      simp [hd]
    simp [hd, h1]
  · have hlen : 1 ≤ (line.takeWhile Char.isDigit).length := by
      rw [List.isEmpty_iff] at hd
      exact List.length_pos.mpr hd
    rcases h : line.dropWhile Char.isDigit with _ | ⟨c, rest⟩
    · simp [hd, hlen, h]
    · by_cases hc : c = '.'
      · subst hc
        simp [hd, hlen, h]
      · rw [if_neg (by simp [h, hc]), if_neg (by simp [hd])]
        split
        · rename_i heq
          injection heq with h1 h2
          exact absurd h1 hc
        · rfl

/-- Helper: filtering out empties after a map equals the `filterMap`
that refuses empties. -/
theorem filterMap_opt_eq_map_filter (g : PyStr → PyStr) (l : List PyStr) :
    (l.filterMap fun x => if (g x).isEmpty then none else some (g x)) =
      (l.map g).filter fun r => ¬ r.isEmpty := by
  induction l with
  | nil => rfl
  | cons a l ih =>
    by_cases h : (g a).isEmpty <;>
      simp only [List.map_cons, List.filterMap_cons, List.filter_cons, h, if_true,
        if_false, ih] <;> simp [h]

/-- C9 amended: `extractRequirements` returns, in order, each line of the
whitespace-trimmed instruction text that is non-blank after trimming,
with a leading marker of one or more digits, a dot, and an arbitrary
(possibly empty) whitespace run removed, dropping lines left empty by the
stripping; in particular `"1. A\n\n2. B\n\n\n3. C"` yields exactly
`["A", "B", "C"]`. -/
theorem C9_extract_requirements_amended :
    (∀ instructions : PyStr,
      GapExtractor.extract_requirements instructions =
        extractRequirementsAmended instructions) ∧
    GapExtractor.extract_requirements ("1. A\n\n2. B\n\n\n3. C".toList) =
      [("A".toList), ("B".toList), ("C".toList)] := by
  constructor
  · intro instructions
    unfold GapExtractor.extract_requirements extractRequirementsAmended
    rw [← filterMap_opt_eq_map_filter]
    have hfun : ∀ line : PyStr,
        (let cleaned_line := GapExtractor.clean_requirement_line line
         if cleaned_line.isEmpty then none else some cleaned_line) =
        (if ((fun l => let trimmed := pyStrip l
              if trimmed.isEmpty then [] else stripAmendedMarker trimmed) line).isEmpty
         then none
         else some ((fun l => let trimmed := pyStrip l
              if trimmed.isEmpty then [] else stripAmendedMarker trimmed) line)) := by
      intro line
      simp only [GapExtractor.clean_requirement_line, stripAmendedMarker_eq]
    exact List.filterMap_congr fun line _ => hfun line
  · decide

/-- Helper: a list is a prefix of itself followed by anything. -/
theorem isPrefixOf_append_self (l t : PyStr) : l.isPrefixOf (l ++ t) = true := by
  induction l with
  | nil => simp [List.isPrefixOf]
  | cons a as ih => simp [List.isPrefixOf, ih]

/-- Helper: a Boolean prefix is a substring. -/
theorem isSubstr_of_isPrefixOf (needle hay : PyStr) (h : needle.isPrefixOf hay = true) :
    isSubstr needle hay = true := by
  cases hay with
  | nil =>
    cases needle with
    | nil => rfl
    | cons c r => simp [List.isPrefixOf] at h
  | cons c rest => simp [isSubstr, h]

/-- Helper: every gap produced by `find_gaps` contains the text
`"Missing requirement"`. -/
theorem find_gaps_contains_missing (requirements : List PyStr) (result : PyStr) :
    ∀ gap ∈ GapExtractor.find_gaps requirements result,
      isSubstr ("Missing requirement".toList) gap = true := by
  intro gap hg
  unfold GapExtractor.find_gaps at hg
  rw [List.mem_filterMap] at hg
  obtain ⟨req, _, hreq⟩ := hg
  dsimp only at hreq
  by_cases hs : GapExtractor.requirement_satisfied req
      (GapExtractor.extract_key_terms req) result = true
  · rw [if_neg (not_not_intro hs)] at hreq
    exact Option.noConfusion hreq
  · rw [if_pos hs] at hreq
    injection hreq with h
    rw [← h]
    apply isSubstr_of_isPrefixOf
    have hsplit : ("Missing requirement: ".toList) =
        ("Missing requirement".toList) ++ (": ".toList) := by decide
    rw [hsplit, List.append_assoc]
    exact isPrefixOf_append_self _ _

/-- Helper: the gap-enhancement map of `_determine_gaps` collapses every
`find_gaps` output to the same `"Incorrect result: <result>"` string. -/
theorem enhanced_gaps_eq_replicate (gaps : List PyStr) (r : PyStr)
    (h : ∀ gap ∈ gaps, isSubstr ("Missing requirement".toList) gap = true) :
    (gaps.map fun gap =>
        if isSubstr ("Missing requirement".toList) gap then
          ("Incorrect result: ".toList) ++ r
        else gap) =
      List.replicate gaps.length (("Incorrect result: ".toList) ++ r) := by
  induction gaps with
  | nil => rfl
  | cons g gs ih =>
    simp only [List.map_cons, List.length_cons, List.replicate_succ,
      h g (by simp), if_true, List.cons.injEq, true_and]
    exact ih fun x hx => h x (by simp [hx])

/-- C2 refuted: at `instructions = "Compute fibonacci quickly"` and
`result = "nope"` the fallback chain reaches `findGaps` (the result is
non-empty and not whitespace, neither the JSON branch nor the
enumerated-items branch applies, and one requirement is extracted),
`findGaps` produces the single gap
`"Missing requirement: Compute fibonacci quickly"`, yet `evaluate`
returns `("FAIL", ["Incorrect result: nope"])` — not the `findGaps`
strings: `_determine_gaps` substitutes `"Incorrect result: <result>"`
for every gap containing `"Missing requirement"`. -/
theorem C2_counterexample :
    GapExtractor.find_gaps
        (GapExtractor.extract_requirements ("Compute fibonacci quickly".toList))
        ("nope".toList) =
      [("Missing requirement: Compute fibonacci quickly".toList)] ∧
    RequirementComparator.evaluate (fun _ => false)
        ("Compute fibonacci quickly".toList) (some ("nope".toList)) =
      (("FAIL".toList), [("Incorrect result: nope".toList)]) ∧
    [("Incorrect result: nope".toList)] ≠
      [("Missing requirement: Compute fibonacci quickly".toList)] := by
  refine ⟨by decide, by decide, by decide⟩

/-- C2 amended: for every JSON-validity oracle, instructions string and
non-PASS result reaching the `findGaps` stage (result non-empty and not
whitespace-only; the instructions contain no `:` and no `)`, so the
enumerated-items branch cannot apply; the JSON branch does not apply;
extracted requirements are non-empty), `evaluate` returns `FAIL` with one
gap string per unsatisfied requirement — but each is the string
`"Incorrect result: <result>"` substituted by `_determine_gaps` for the
`"Missing requirement: ..."` text `findGaps` produced (and the single
generic `"Incorrect result: <result>"` when `findGaps` finds no gap). -/
theorem C2_evaluate_fallback_amended (is_valid_json : PyStr → Bool)
    (instructions r : PyStr)
    (hpass : r ≠ ("PASS".toList))
    (hempty : r ≠ [])
    (hws : pyStrip r ≠ [])
    (hjson : isSubstr ("json".toList) (toLowerStr instructions) = false ∨
      is_valid_json r = true)
    (hcolon : isSubstr (":".toList) (toLowerStr instructions) = false)
    (hparen : isSubstr (")".toList) instructions = false)
    (hreqs : GapExtractor.extract_requirements instructions ≠ []) :
    RequirementComparator.evaluate is_valid_json instructions (some r) =
      (("FAIL".toList),
        List.replicate
          (max 1 (GapExtractor.find_gaps
            (GapExtractor.extract_requirements instructions) r).length)
          (("Incorrect result: ".toList) ++ r)) := by
  have hni : ¬ GapExtractor.is_pass (some r) = true := by
    unfold GapExtractor.is_pass
    simp only [beq_iff_eq, Option.some.injEq]
    exact hpass
  unfold RequirementComparator.evaluate
  rw [if_neg hni]
  congr 1
  unfold RequirementComparator.determine_gaps
  dsimp only
  rw [if_neg (c := List.isEmpty r = true) (by simp [List.isEmpty_iff, hempty])]
  rw [if_neg (c := List.isEmpty (pyStrip r) = true) (by simp [List.isEmpty_iff, hws])]
  rw [if_neg (by
    intro hcond
    rw [Bool.and_eq_true] at hcond
    rcases hjson with hj | hj
    · rw [hj] at hcond
      exact Bool.noConfusion hcond.1
    · rw [hj] at hcond
      simp at hcond)]
  rw [if_neg (by
    intro hcond
    rw [Bool.and_eq_true] at hcond
    obtain ⟨h1, _⟩ := hcond
    rw [Bool.or_eq_true] at h1
    rcases h1 with h | h
    · rw [hcolon] at h
      exact Bool.noConfusion h
    · rw [hparen] at h
      exact Bool.noConfusion h)]
  rw [if_neg (by simp [List.isEmpty_iff, hreqs])]
  by_cases hg : (GapExtractor.find_gaps
      (GapExtractor.extract_requirements instructions) r).isEmpty = true
  · have hlen : (GapExtractor.find_gaps
        (GapExtractor.extract_requirements instructions) r).length = 0 := by
      rw [List.isEmpty_iff] at hg
      simp [hg]
    rw [if_neg (not_not_intro hg), hlen]
    simp
  · have hlen : 1 ≤ (GapExtractor.find_gaps
        (GapExtractor.extract_requirements instructions) r).length := by
      rw [List.isEmpty_iff] at hg
      exact List.length_pos.mpr hg
    have hmax : max 1 (GapExtractor.find_gaps
        (GapExtractor.extract_requirements instructions) r).length =
      (GapExtractor.find_gaps
        (GapExtractor.extract_requirements instructions) r).length := by omega
    rw [if_pos hg, hmax]
    exact enhanced_gaps_eq_replicate _ r
      (find_gaps_contains_missing (GapExtractor.extract_requirements instructions) r)

/-- Witness for `C2_evaluate_fallback_amended` at
`instructions = "Compute fibonacci quickly"`, `result = "nope"`, with the
JSON oracle constantly false. -/
theorem C2_evaluate_fallback_amended_witness :
    RequirementComparator.evaluate (fun _ => false)
        ("Compute fibonacci quickly".toList) (some ("nope".toList)) =
      (("FAIL".toList),
        List.replicate
          (max 1 (GapExtractor.find_gaps
            (GapExtractor.extract_requirements ("Compute fibonacci quickly".toList))
            ("nope".toList)).length)
          (("Incorrect result: ".toList) ++ ("nope".toList))) :=
  C2_evaluate_fallback_amended (fun _ => false) _ _ (by decide) (by decide) (by decide)
    (Or.inl (by decide)) (by decide) (by decide) (by decide)

/-- Helper: one circuit-breaker operation never decreases the failure
count and never closes an open breaker. -/
theorem CircuitBreaker_applyOp_mono (cb : CircuitBreaker) (op : CircuitBreaker.Op) :
    cb.failure_count ≤ (cb.applyOp op).failure_count ∧
      (cb.open_flag = true → (cb.applyOp op).open_flag = true) := by
  cases op with
  | recordFailure =>
    simp only [CircuitBreaker.applyOp, CircuitBreaker.record_failure]
    constructor
    · omega
    · intro h
      split
      · rfl
      · exact h
  | isOpenQuery => exact ⟨le_refl _, fun h => h⟩

/-- Helper: sequences of operations keep the failure count monotone and
keep an open breaker open. -/
theorem CircuitBreaker_applyOps_mono (cb : CircuitBreaker) (ops : List CircuitBreaker.Op) :
    cb.failure_count ≤ (cb.applyOps ops).failure_count ∧
      (cb.open_flag = true → (cb.applyOps ops).open_flag = true) := by
  induction ops generalizing cb with
  | nil => exact ⟨le_refl _, fun h => h⟩
  | cons op ops ih =>
    have h1 := CircuitBreaker_applyOp_mono cb op
    have h2 := ih (cb.applyOp op)
    exact ⟨le_trans h1.1 h2.1, fun h => h2.2 (h1.2 h)⟩

/-- Helper: the exact state after `k` `record_failure` calls: the count
rises by `k` and the breaker is open iff it was, or some call reached the
threshold (the counts pass through `f+1, ..., f+k`, so that happens iff
`k ≥ 1` and `f + k ≥ max_failures`). -/
theorem CircuitBreaker_replicate_record (m f : ℤ) (o : Bool) (k : ℕ) :
    CircuitBreaker.applyOps ⟨m, f, o⟩ (List.replicate k .recordFailure) =
      ⟨m, f + k, o || decide (1 ≤ k ∧ m ≤ f + k)⟩ := by
  induction k generalizing f o with
  | zero =>
    simp [CircuitBreaker.applyOps]
  | succ k ih =>
    rw [List.replicate_succ]
    have hstep : CircuitBreaker.applyOps ⟨m, f, o⟩
        (CircuitBreaker.Op.recordFailure :: List.replicate k .recordFailure) =
      CircuitBreaker.applyOps ⟨m, f + 1, if f + 1 ≥ m then true else o⟩
        (List.replicate k .recordFailure) := rfl
    rw [hstep, ih]
    simp only [CircuitBreaker.mk.injEq, true_and]
    constructor
    · push_cast
      ring
    · by_cases hth : f + 1 ≥ m
      · rw [if_pos hth]
        simp only [Bool.true_or]
        have hdec : (1 ≤ k + 1 ∧ m ≤ f + ((k + 1 : ℕ) : ℤ)) :=
          ⟨by omega, by push_cast; omega⟩
        rw [decide_eq_true hdec]
        simp
      · rw [if_neg hth]
        congr 1
        rw [decide_eq_decide]
        constructor
        · rintro ⟨h1, h2⟩
          exact ⟨by omega, by push_cast; omega⟩
        · rintro ⟨h1, h2⟩
          push_cast at h2
          exact ⟨by omega, by omega⟩

/-- C5 refuted at `maxFailures = 0` (a reachable instance:
`WorkflowOrchestrator(max_retries=0)` builds
`CircuitBreaker(max_failures=0)`): calling `recordFailure` maxFailures
times there means calling it zero times, after which `isOpen()` is still
false. -/
theorem C5_counterexample :
    (CircuitBreaker.init 0).max_failures = 0 ∧
    ((CircuitBreaker.init 0).applyOps
        (List.replicate ((CircuitBreaker.init 0).max_failures).toNat
          CircuitBreaker.Op.recordFailure)).is_open = false := by
  refine ⟨rfl, by decide⟩

/-- C5 amended: the circuit-breaker state is monotonic — `failure_count`
never decreases under any operation, and once `isOpen()` is true no
sequence of further operations makes it false again; and for every
instance with `maxFailures ≥ 1`, calling `recordFailure` maxFailures
times makes `isOpen()` return true (an instance with `maxFailures ≤ 0`
instead opens on the first recorded failure, not after zero calls). -/
theorem C5_circuit_breaker_monotonic :
    (∀ (cb : CircuitBreaker) (ops : List CircuitBreaker.Op),
        cb.failure_count ≤ (cb.applyOps ops).failure_count) ∧
    (∀ m : ℤ, 1 ≤ m →
        ((CircuitBreaker.init m).applyOps
          (List.replicate m.toNat CircuitBreaker.Op.recordFailure)).is_open = true) ∧
    (∀ (cb : CircuitBreaker) (ops : List CircuitBreaker.Op),
        cb.is_open = true → (cb.applyOps ops).is_open = true) := by
  refine ⟨fun cb ops => (CircuitBreaker_applyOps_mono cb ops).1, ?_,
    fun cb ops h => (CircuitBreaker_applyOps_mono cb ops).2 h⟩
  intro m hm
  unfold CircuitBreaker.init
  rw [show (CircuitBreaker.mk m 0 false) = ⟨m, 0, false⟩ from rfl,
    CircuitBreaker_replicate_record]
  unfold CircuitBreaker.is_open
  dsimp only
  have : (1 ≤ m.toNat ∧ m ≤ 0 + (m.toNat : ℤ)) := by omega
  simp [this]

/-- Witness for `C5_circuit_breaker_monotonic` at `maxFailures = 3`. -/
theorem C5_circuit_breaker_monotonic_witness :
    (CircuitBreaker.init 3).failure_count ≤
      ((CircuitBreaker.init 3).applyOps
        (List.replicate 3 CircuitBreaker.Op.recordFailure)).failure_count ∧
    ((CircuitBreaker.init 3).applyOps
        (List.replicate (3 : ℤ).toNat CircuitBreaker.Op.recordFailure)).is_open = true :=
  ⟨C5_circuit_breaker_monotonic.1 (CircuitBreaker.init 3)
      (List.replicate 3 CircuitBreaker.Op.recordFailure),
    C5_circuit_breaker_monotonic.2.1 3 (by decide)⟩

/-- Helper: mapping `JSON.str` always yields an array of strings. -/
theorem all_str_map_str (gaps : List PyStr) :
    (gaps.map JSON.str).all (fun it => match it with | .str _ => true | _ => false) = true := by
  induction gaps with
  | nil => rfl
  | cons g gs ih => simp [ih]

/-- Helper: the FAIL document built by `write_fail` passes
`validate_feedback` exactly when the gap list is non-empty. -/
theorem validate_write_fail_doc (gaps : List PyStr) (attempt : ℤ) (pod_id timestamp : PyStr) :
    (JSONValidator.validate_feedback
      [(("status".toList), .str ("FAIL".toList)),
       (("gaps".toList), .arr (gaps.map .str)),
       (("attempt".toList), .int attempt),
       (("timestamp".toList), .str timestamp),
       (("pod_id".toList), .str pod_id)]).1 = decide (1 ≤ gaps.length) := by
  unfold JSONValidator.validate_feedback JSONValidator.validate_feedback_fail
    JSONValidator.jget
  simp only [List.find?, List.map_cons]
  by_cases h : 1 ≤ gaps.length
  · simp [all_str_map_str, h]
  · simp [all_str_map_str, h]

/-- C7: writing FAIL feedback with an empty gap list raises a
`ValueError` from validation and performs no write at all (no
`feedback.json` is created or modified), and conversely every FAIL
feedback document this operation persists carries at least one gap
string. -/
theorem C7_write_fail_empty_gaps_rejected :
    (∀ (attempt : ℤ) (pod_dir pod_id timestamp : PyStr),
        FeedbackManager.write_fail [] attempt pod_dir pod_id timestamp =
          (.error .valueError, [])) ∧
    (∀ (gaps : List PyStr) (attempt : ℤ) (pod_dir pod_id timestamp : PyStr)
        (p : PyStr) (ops : List WriteOp),
        FeedbackManager.write_fail gaps attempt pod_dir pod_id timestamp = (.ok p, ops) →
          1 ≤ gaps.length) := by
  constructor
  · intro attempt pod_dir pod_id timestamp
    unfold FeedbackManager.write_fail
    rw [if_pos]
    rw [validate_write_fail_doc]
    decide
  · intro gaps attempt pod_dir pod_id timestamp p ops hok
    by_contra hlen
    unfold FeedbackManager.write_fail at hok
    rw [if_pos] at hok
    · exact Prod.noConfusion hok fun h1 _ => Except.noConfusion h1
    · rw [validate_write_fail_doc]
      simpa using hlen

/-- Witness for `C7_write_fail_empty_gaps_rejected`: the empty-gaps write
is rejected without a write, and a persisted one-gap document has
`gaps.length ≥ 1`. -/
theorem C7_write_fail_empty_gaps_rejected_witness :
    FeedbackManager.write_fail [] 1 ("pod".toList) ("pod-1".toList) ("t0".toList) =
      (.error .valueError, []) ∧
    (1 : ℕ) ≤ [("Missing requirement: x".toList)].length :=
  ⟨C7_write_fail_empty_gaps_rejected.1 1 ("pod".toList) ("pod-1".toList) ("t0".toList),
    C7_write_fail_empty_gaps_rejected.2 [("Missing requirement: x".toList)] 1
      ("pod".toList) ("pod-1".toList) ("t0".toList)
      (("pod".toList) ++ ("/feedback.json".toList)) _ rfl⟩

/-- C6 (code bug): for every non-empty result value, `ResultManager.write`
performs exactly one write, issued through `FileWriter.write` — the plain
truncating path — and that operation is not the atomic temp-file-plus-
rename operation the component's own comment ("Write atomically to
result.json") and the spec describe; no schema validation runs on this
path (the only check is non-emptiness). -/
theorem C6_result_manager_write_is_plain (result worker_dir worker_id pod_id
    session_id timestamp : PyStr) (h : result ≠ []) :
    (ResultManager.write result worker_dir worker_id pod_id session_id timestamp).2 =
      [FileWriter.write (worker_dir ++ ("/result.json".toList))
        (.obj [(("result".toList), .str result),
               (("worker_id".toList), .str worker_id),
               (("pod_id".toList), .str pod_id),
               (("session_id".toList), .str session_id),
               (("timestamp".toList), .str timestamp)])] ∧
    (∀ (p : PyStr) (d : JSON), FileWriter.write p d ≠ FileWriter.write_atomic p d) := by
  constructor
  · unfold ResultManager.write
    rw [if_neg (by simp [List.isEmpty_iff, h])]
  · intro p d hcontr
    exact WriteOp.noConfusion hcontr

/-- Witness for `C6_result_manager_write_is_plain` at `result = "42"`. -/
theorem C6_result_manager_write_is_plain_witness :
    (ResultManager.write ("42".toList) ("w".toList) ("w1".toList) ("p1".toList)
        ("s1".toList) ("t0".toList)).2 =
      [FileWriter.write (("w".toList) ++ ("/result.json".toList))
        (.obj [(("result".toList), .str ("42".toList)),
               (("worker_id".toList), .str ("w1".toList)),
               (("pod_id".toList), .str ("p1".toList)),
               (("session_id".toList), .str ("s1".toList)),
               (("timestamp".toList), .str ("t0".toList))])] ∧
    (∀ (p : PyStr) (d : JSON), FileWriter.write p d ≠ FileWriter.write_atomic p d) :=
  C6_result_manager_write_is_plain ("42".toList) ("w".toList) ("w1".toList)
    ("p1".toList) ("s1".toList) ("t0".toList) (by decide)

/-- C8: a worker-side `TimeoutError` raised during any iteration is the
one exception `run()` absorbs: it is converted into the terminal result
`{status: "FAIL", reason: "timeout: <detail>", attempts: <current
attempt count>}`, `run()` never lets a `TimeoutError` escape, and every
other exception raised inside the loop propagates to the caller
unchanged (same exception value, same loop state). -/
theorem C8_timeout_absorbed_others_propagate :
    (∀ (env : PodEnv) (max_attempts : ℤ) (s : LoopState) (detail : PyStr),
        FeedbackLoop.run_loop env max_attempts = (s, .error (.timeoutError detail)) →
        FeedbackLoop.run env max_attempts =
          (s, .ok { status := ("FAIL".toList),
                    reason := some (("timeout: ".toList) ++ detail),
                    attempts := s.current_attempt })) ∧
    (∀ (env : PodEnv) (max_attempts : ℤ) (s : LoopState) (exn : PyExn),
        (∀ detail, exn ≠ .timeoutError detail) →
        FeedbackLoop.run_loop env max_attempts = (s, .error exn) →
        FeedbackLoop.run env max_attempts = (s, .error exn)) ∧
    (∀ (env : PodEnv) (max_attempts : ℤ) (s : LoopState) (detail : PyStr),
        FeedbackLoop.run env max_attempts ≠ (s, .error (.timeoutError detail))) := by
  refine ⟨?_, ?_, ?_⟩
  · intro env max_attempts s detail hrl
    unfold FeedbackLoop.run
    rw [hrl]
  · intro env max_attempts s exn hne hrl
    unfold FeedbackLoop.run
    rw [hrl]
    cases exn with
    | timeoutError d => exact absurd rfl (hne d)
    | other name => rfl
  · intro env max_attempts s detail
    unfold FeedbackLoop.run
    rcases hrl : FeedbackLoop.run_loop env max_attempts with ⟨s1, out⟩
    cases out with
    | ok r => simp
    | error exn =>
      cases exn with
      | timeoutError d => simp
      | other name => simp

/-- Witness for `C8_timeout_absorbed_others_propagate`: a worker that
raises `TimeoutError("Worker timeout")` on its first attempt produces the
graceful FAIL result, and a worker raising a `ValueError` propagates it. -/
theorem C8_timeout_absorbed_others_propagate_witness :
    FeedbackLoop.run
        { worker := fun _ => .error (.timeoutError ("Worker timeout".toList)) } 3 =
      ({ current_attempt := 1, iteration_count := 1, loop_status := ("idle".toList),
         history := [], instructions_checks := 1, worker_calls := 1,
         supervisor_calls := 0 },
       .ok { status := ("FAIL".toList),
             reason := some (("timeout: ".toList) ++ ("Worker timeout".toList)),
             attempts := 1 }) ∧
    FeedbackLoop.run
        { worker := fun _ => .error (.other ("ValueError".toList)) } 3 =
      ({ current_attempt := 1, iteration_count := 1, loop_status := ("idle".toList),
         history := [], instructions_checks := 1, worker_calls := 1,
         supervisor_calls := 0 },
       .error (.other ("ValueError".toList))) :=
  ⟨C8_timeout_absorbed_others_propagate.1
      { worker := fun _ => .error (.timeoutError ("Worker timeout".toList)) } 3
      { current_attempt := 1, iteration_count := 1, loop_status := ("idle".toList),
        history := [], instructions_checks := 1, worker_calls := 1,
        supervisor_calls := 0 }
      ("Worker timeout".toList) rfl,
    C8_timeout_absorbed_others_propagate.2.1
      { worker := fun _ => .error (.other ("ValueError".toList)) } 3
      { current_attempt := 1, iteration_count := 1, loop_status := ("idle".toList),
        history := [], instructions_checks := 1, worker_calls := 1,
        supervisor_calls := 0 }
      (.other ("ValueError".toList)) (fun _ h => PyExn.noConfusion h) rfl⟩

/-- C10: a `FeedbackLoop` constructed with a non-positive `max_attempts`
returns `{status: "FAIL", reason: "MAX_ATTEMPTS_EXCEEDED", attempts: 0}`
immediately: the worker is never executed, `instructions.json` is never
checked or read, the supervisor never evaluates, and the history stays
empty. -/
theorem C10_nonpositive_max_attempts (env : PodEnv) (max_attempts : ℤ)
    (h : max_attempts ≤ 0) :
    FeedbackLoop.run env max_attempts =
      ({ current_attempt := 0, iteration_count := 0,
         loop_status := ("FAILED".toList), history := [],
         instructions_checks := 0, worker_calls := 0, supervisor_calls := 0 },
       .ok { status := ("FAIL".toList),
             reason := some ("MAX_ATTEMPTS_EXCEEDED".toList), attempts := 0 }) := by
  have hfuel : max_attempts.toNat = 0 := Int.toNat_of_nonpos h
  unfold FeedbackLoop.run FeedbackLoop.run_loop
  rw [hfuel]
  rfl

/-- Witness for `C10_nonpositive_max_attempts` at `max_attempts = 0` with
the default oracle. -/
theorem C10_nonpositive_max_attempts_witness :
    FeedbackLoop.run {} 0 =
      ({ current_attempt := 0, iteration_count := 0,
         loop_status := ("FAILED".toList), history := [],
         instructions_checks := 0, worker_calls := 0, supervisor_calls := 0 },
       .ok { status := ("FAIL".toList),
             reason := some ("MAX_ATTEMPTS_EXCEEDED".toList), attempts := 0 }) :=
  C10_nonpositive_max_attempts {} 0 (by decide)

/-- C3 refuted (with `backoffBase = 1`): a single step with
`should_fail_count = 2` under `maxRetries = 3` does record exactly 3
executions, but the step's sleeps are `[1*0, 1*1]` inside the simulated-
failure branch (line 77 sleeps `backoff_base * (attempts - 1)` before
raising) plus `[1*1, 1*2]` between attempts (line 156), totalling `4`
seconds — not the claimed `1*1 + 1*2 = 3`. -/
theorem C3_counterexample :
    (execute_with_retry (Orch.init 3 1)
        [{ action := ("step1".toList), should_fail_count := 2 }] {}).2 =
      .ok { status := ("completed".toList), steps_executed := 1, failures := 0,
            step_attempts := [(("step1_attempts".toList), 3)],
            step_execution_counts := [(("step1_executions".toList), 3)] } ∧
    (execute_with_retry (Orch.init 3 1)
        [{ action := ("step1".toList), should_fail_count := 2 }] {}).1.sleeps.sum = 4 ∧
    (4 : ℚ) ≠ 1 * 1 + 1 * 2 := by
  refine ⟨rfl, ?_, by norm_num⟩
  have h : (execute_with_retry (Orch.init 3 1)
      [{ action := ("step1".toList), should_fail_count := 2 }] {}).1.sleeps =
      [1 * ((0 : ℕ) : ℚ), 1 * ((1 : ℕ) : ℚ), 1 * ((1 : ℕ) : ℚ), 1 * ((2 : ℕ) : ℚ)] := rfl
  rw [h]
  norm_num

/-- C3 amended: with `maxRetries = 3` and backoff base `b`, a single step
with `should_fail_count = 2` records exactly 3 executions, and the sleeps
during the step are `b*0` and `b*1` (slept by the simulated-failure
branch before raising on attempts 1 and 2) plus the between-attempt
backoff sleeps `b*1` and `b*2`, so the total slept is `b*4` — of which
the between-attempt backoff alone accounts for the claimed `b*1 + b*2`. -/
theorem C3_retry_executions_and_sleeps (b : ℚ) :
    (execute_with_retry (Orch.init 3 b)
        [{ action := ("step1".toList), should_fail_count := 2 }] {}).2 =
      .ok { status := ("completed".toList), steps_executed := 1, failures := 0,
            step_attempts := [(("step1_attempts".toList), 3)],
            step_execution_counts := [(("step1_executions".toList), 3)] } ∧
    (execute_with_retry (Orch.init 3 b)
        [{ action := ("step1".toList), should_fail_count := 2 }] {}).1.sleeps =
      [b * ((0 : ℕ) : ℚ), b * ((1 : ℕ) : ℚ), b * ((1 : ℕ) : ℚ), b * ((2 : ℕ) : ℚ)] ∧
    (execute_with_retry (Orch.init 3 b)
        [{ action := ("step1".toList), should_fail_count := 2 }] {}).1.sleeps.sum =
      b * 4 := by
  refine ⟨rfl, rfl, ?_⟩
  have h : (execute_with_retry (Orch.init 3 b)
      [{ action := ("step1".toList), should_fail_count := 2 }] {}).1.sleeps =
      [b * ((0 : ℕ) : ℚ), b * ((1 : ℕ) : ℚ), b * ((1 : ℕ) : ℚ), b * ((2 : ℕ) : ℚ)] := rfl
  rw [h]
  push_cast
  ring_nf
  simp [List.sum_cons]
  ring

/-- Helper: when the simulated-failure hook fires (`should_fail_count >=
attempts` and no `should_fail_once` on attempt 1), the `try:` body sleeps
`backoff_base * (attempts - 1)` and raises `Intentional failure
{attempts}`. -/
theorem tryBody_simulated_failure (ctx : Ctx) (step : Step) (attempts : ℕ)
    (e : ExecEnv) (honce : step.should_fail_once = false)
    (hcnt : attempts ≤ step.should_fail_count) :
    tryBody ctx step attempts e =
      ({ e with sleeps := e.sleeps ++ [e.o.backoff_base * ((attempts - 1 : ℕ) : ℚ)] },
       .error (.intentionalFailureN attempts)) := by
  unfold tryBody
  rw [if_neg (by simp [honce]), if_pos hcnt]

/-- Helper: a step whose simulated failure fires on every attempt,
executed under the default wiring in which the breaker threshold equals
`max_retries` and the breaker has so far recorded exactly the preceding
attempts, always ends in `Exception("Circuit breaker opened")` chained
from the final attempt's `Intentional failure {max_retries}` — the bare
re-raise of the original exception (line 149) is unreachable here because
the breaker necessarily opens on the final attempt's `record_failure`. -/
theorem stepLoop_fail_all_opens (ctx : Ctx) (step : Step) (step_key : PyStr) (mr : ℕ)
    (honce : step.should_fail_once = false)
    (hsfc : mr ≤ step.should_fail_count)
    (hmut : step.action ∉ mutatingActions) :
    ∀ (fuel attempts : ℕ) (e : ExecEnv),
      1 ≤ fuel →
      attempts + fuel = mr →
      e.o.max_retries = mr →
      e.o.circuit_breaker = ⟨(mr : ℤ), (attempts : ℤ), false⟩ →
      (stepLoop ctx step step_key fuel attempts e).outcome =
        .error (.circuitBreakerOpened (.intentionalFailureN mr)) := by
  intro fuel
  induction fuel with
  | zero => intro attempts e h1 _ _ _; omega
  | succ f ih =>
    intro attempts e _ hsum hmr hcb
    rw [stepLoop]
    rw [tryBody_simulated_failure ctx step (attempts + 1) _ honce (by omega)]
    dsimp only
    rw [hmr, hcb]
    simp only [CircuitBreaker.record_failure]
    by_cases hlast : attempts + 1 ≥ mr
    · rw [if_pos hlast]
      have hopen : ((attempts : ℤ) + 1 ≥ (mr : ℤ)) := by omega
      rw [if_neg hmut, if_pos (c := CircuitBreaker.is_open _ = true)
        (by simp [CircuitBreaker.is_open, hopen])]
      have heq : attempts + 1 = mr := by omega
      rw [heq]
    · rw [if_neg hlast]
      have hclosed : ¬ ((attempts : ℤ) + 1 ≥ (mr : ℤ)) := by omega
      rw [if_neg (c := CircuitBreaker.is_open _ = true)
        (by simp [CircuitBreaker.is_open, hclosed])]
      apply ih (attempts + 1)
      · omega
      · omega
      · rfl
      · simp only [CircuitBreaker.mk.injEq, true_and]
        refine ⟨by push_cast; ring, ?_⟩
        rw [if_neg hclosed]

/-- C4 refuted: an orchestrator with `maxRetries = 1` (breaker threshold
1, the default wiring `CircuitBreaker(max_failures=max_retries)`) running
the non-mutating step `{action: "some_other_action", should_fail_count:
10}` exhausts its retries, and the caller observes
`Exception("Circuit breaker opened")` chained from the original
`Intentional failure 1` — not the original exception itself. -/
theorem C4_counterexample :
    (execute_with_retry (Orch.init 1 1)
        [{ action := ("some_other_action".toList), should_fail_count := 10 }] {}).2 =
      .error (.circuitBreakerOpened (.intentionalFailureN 1)) ∧
    Exn.circuitBreakerOpened (.intentionalFailureN 1) ≠ Exn.intentionalFailureN 1 := by
  refine ⟨rfl, by decide⟩

/-- C4 amended: for every orchestrator (`maxRetries ≥ 1`, any backoff
base) executing a single step of a non-mutating kind that fails on all
`maxRetries` attempts (via the simulated-failure hook), the caller does
not observe the original exception: because the circuit breaker is wired
with threshold `maxRetries`, it necessarily opens on the final attempt's
`record_failure`, so `execute_with_retry` raises the distinguished
`Exception("Circuit breaker opened")` chained from the original
exception; the bare re-raise of the original exception (line 149) would
run only if the breaker were still closed at exhaustion, which the
default construction makes impossible. -/
theorem C4_exhaustion_raises_circuit_open (mr : ℕ) (b : ℚ) (step : Step) (ctx : Ctx)
    (hmr : 1 ≤ mr)
    (hmut : step.action ∉ mutatingActions)
    (hsfc : mr ≤ step.should_fail_count)
    (honce : step.should_fail_once = false) :
    (execute_with_retry (Orch.init mr b) [step] ctx).2 =
      .error (.circuitBreakerOpened (.intentionalFailureN mr)) ∧
    (∀ cause : Exn, Exn.circuitBreakerOpened cause ≠ cause) := by
  constructor
  · unfold execute_with_retry
    rw [show ([step]).enum = [(0, step)] from rfl]
    simp only [execSteps]
    dsimp only [Orch.init, CircuitBreaker.init]
    rw [if_neg (by simp)]
    rw [stepLoop_fail_all_opens ctx step _ mr honce hsfc hmut mr 0 _
      (by omega) (by omega) rfl rfl]
  · intro cause
    induction cause with
    | circuitBreakerOpened inner ih =>
      intro h
      exact ih (Exn.circuitBreakerOpened.inj h)
    | intentionalFailureTesting => exact fun h => Exn.noConfusion h
    | intentionalFailureN n => exact fun h => Exn.noConfusion h
    | intentionalFailure => exact fun h => Exn.noConfusion h
    | stepFailedAsConfigured => exact fun h => Exn.noConfusion h

/-- Witness for `C4_exhaustion_raises_circuit_open` at `maxRetries = 3`,
base `1`, step `{action: "some_other_action", should_fail_count: 10}`. -/
theorem C4_exhaustion_raises_circuit_open_witness :
    (execute_with_retry (Orch.init 3 1)
        [{ action := ("some_other_action".toList), should_fail_count := 10 }] {}).2 =
      .error (.circuitBreakerOpened (.intentionalFailureN 3)) ∧
    (∀ cause : Exn, Exn.circuitBreakerOpened cause ≠ cause) :=
  C4_exhaustion_raises_circuit_open 3 1
    { action := ("some_other_action".toList), should_fail_count := 10 } {}
    (by decide) (by decide) (by decide) rfl
